import Mathlib

/-!
Verification development for a restaurant-costing application:
an Express route layer for the `ingredient` resource, a generic
data-access layer (`PantryView` / `PantryTable` / DAO base classes)
over the Massive ORM, and a React ingredient form (`BasicForm`).

The TypeScript sources are shallowly embedded: JavaScript runtime
values are modelled by `JSValue`, database effects by explicit state
passing plus an event log, and the Massive table by a record of
functions together with a log of the queries issued, so that
"no query was issued" is a provable statement.
-/

/-- A JavaScript runtime value as it can appear in a JSON request body:
`undefined`, `null`, a string, a finite number (modelled as a rational,
which covers every numeric literal the application handles), `NaN`
(which has `typeof === number` but is falsy and incomparable), or a
boolean. -/
inductive JSValue where
  | undef
  | null
  | str (s : String)
  | num (q : ℚ)
  | nan
  | bool (b : Bool)
deriving DecidableEq, Repr

/-- JavaScript truthiness: `undefined`, `null`, `NaN`, `""`, `0` and
`false` are falsy, everything else modelled here is truthy. -/
def JSValue.truthy : JSValue → Bool
  | .undef => false
  | .null => false
  | .nan => false
  | .str s => !(s == "")
  | .num q => !(q == 0)
  | .bool b => b

/-- `typeof v === "string"`. -/
def JSValue.isString : JSValue → Bool
  | .str _ => true
  | _ => false

/-- `typeof v === "number"`; in JavaScript `NaN` is of type number. -/
def JSValue.isNumberType : JSValue → Bool
  | .num _ => true
  | .nan => true
  | _ => false

/-- The JavaScript comparison `v < 0`; `NaN < 0` is false. -/
def JSValue.ltZero : JSValue → Bool
  | .num q => decide (q < 0)
  | _ => false

/-- The JavaScript comparison `v <= 0`; `NaN <= 0` is false. -/
def JSValue.leZero : JSValue → Bool
  | .num q => decide (q ≤ 0)
  | _ => false

/-- The whitespace characters recognised by the trimming and number
parsing model (the forms of whitespace the application's inputs use). -/
def isJsWhitespace (c : Char) : Bool :=
  c == ' ' || c == '\t' || c == '\n' || c == '\r'

/-- JavaScript `String.prototype.trim`: remove leading and trailing
whitespace. -/
def jsTrimString (s : String) : String :=
  String.mk (((s.toList.dropWhile isJsWhitespace).reverse.dropWhile isJsWhitespace).reverse)

/-- `name.trim()` applied to a `JSValue` known to be a string at the
call site; non-strings are returned unchanged. -/
def JSValue.trimStr : JSValue → JSValue
  | .str s => .str (jsTrimString s)
  | v => v

/-- Fold a list of decimal digit characters into the natural number
they denote. -/
def digitsToNat (cs : List Char) : Nat :=
  cs.foldl (fun a c => a * 10 + (c.toNat - 48)) 0

/-- JavaScript `parseInt(s)` (radix 10): skip leading whitespace, read
an optional sign and then the longest run of decimal digits; the result
is `NaN` (here `none`) when no digit is found, and trailing garbage is
ignored. -/
def parseIntJS (s : String) : Option Int :=
  let cs := s.toList.dropWhile isJsWhitespace
  let signAndRest : Int × List Char :=
    match cs with
    | '-' :: r => (-1, r)
    | '+' :: r => (1, r)
    | r => (1, r)
  let digits := signAndRest.2.takeWhile Char.isDigit
  if digits.isEmpty then none
  else some (signAndRest.1 * (digitsToNat digits : Int))

/-- The rational denoted by an integer digit run and a fractional digit
run, with a sign: `± intPart.fracPart`, built with core `mkRat` so the
value computes by kernel reduction. -/
def decimalToRat (neg : Bool) (intPart frac : List Char) : ℚ :=
  let mag := mkRat (Int.ofNat (digitsToNat intPart * 10 ^ frac.length + digitsToNat frac))
    (10 ^ frac.length)
  if neg then -mag else mag

/-- JavaScript `parseFloat(s)`: skip leading whitespace, read an
optional sign, then the longest `digits [. digits]` prefix; `NaN`
(here `none`) when no digit is found at all. -/
def parseFloatJS (s : String) : Option ℚ :=
  let cs := s.toList.dropWhile isJsWhitespace
  let signAndRest : Bool × List Char :=
    match cs with
    | '-' :: r => (true, r)
    | '+' :: r => (false, r)
    | r => (false, r)
  let intPart := signAndRest.2.takeWhile Char.isDigit
  let rest := signAndRest.2.drop intPart.length
  let frac :=
    match rest with
    | '.' :: f => f.takeWhile Char.isDigit
    | _ => []
  if intPart.isEmpty && frac.isEmpty then none
  else some (decimalToRat signAndRest.1 intPart frac)

/-! ## Route layer: the `ingredient` resource

`src/api/src/routes/ingredient/index.ts`. Database effects appear as
explicit state (`DBState`) together with a log of the database calls
the handler makes (`DBEvent`), in the order it makes them. -/

/-- A persisted ingredient row. `name`/`unit` are stored as the string
values the handler validated, `cost_per_unit`/`vendor_id` as the
numeric values; keeping them as `JSValue` mirrors the schemaless
JavaScript row object. -/
structure IngredientRow where
  id : Int
  name : JSValue
  unit : JSValue
  cost_per_unit : JSValue
  vendor_id : JSValue
deriving DecidableEq, Repr

/-- The slice of database state the ingredient routes touch: the ids of
the existing `entity` (vendor) rows, the ingredient rows, and the next
generated ingredient id. -/
structure DBState where
  entities : List ℚ
  ingredients : List IngredientRow
  nextId : Int
deriving DecidableEq, Repr

/-- A database call made by a route handler, in program order. -/
inductive DBEvent where
  | vendorLookup (v : JSValue)
  | ingredientInsert (r : IngredientRow)
  | ingredientFindOne (id : Int)
deriving DecidableEq, Repr

/-- Whether an event is the ingredient insert. -/
def DBEvent.isInsertEvent : DBEvent → Bool
  | .ingredientInsert _ => true
  | _ => false

/-- `db.entity.findOne(vendor_id)` reduced to the truthiness the handler
checks: a row exists exactly when `vendor_id` is a number appearing in
the entity table. -/
def DBState.vendorExists (db : DBState) (v : JSValue) : Bool :=
  match v with
  | .num q => db.entities.contains q
  | _ => false

/-- `db.ingredient.insert({...})`: append a row with the next generated
id and return the created row together with the new state. -/
def DBState.insertIngredient (db : DBState) (name unit cost vendor : JSValue) :
    IngredientRow × DBState :=
  let row : IngredientRow := ⟨db.nextId, name, unit, cost, vendor⟩
  (row, { db with ingredients := db.ingredients ++ [row], nextId := db.nextId + 1 })

/-- `db.ingredient.findOne(id)`. -/
def DBState.findIngredient (db : DBState) (id : Int) : Option IngredientRow :=
  db.ingredients.find? (fun r => r.id == id)

/-- A JSON response body: a bare message object `{message}`, the POST
success envelope `{message, ingredient}`, a bare row object (no
envelope), or a bare array of rows. -/
inductive ResponseBody where
  | msg (m : String)
  | created (m : String) (ingredient : IngredientRow)
  | row (r : IngredientRow)
  | rows (rs : List IngredientRow)
deriving DecidableEq, Repr

/-- An HTTP response: status code and JSON body. -/
structure HttpResponse where
  status : Nat
  body : ResponseBody
deriving DecidableEq, Repr

/-- Result of the POST handler: the response sent, the database state
after the request, and the database calls made in order. -/
structure PostResult where
  response : HttpResponse
  db : DBState
  events : List DBEvent
deriving DecidableEq, Repr

/-- The POST body after `const { name, unit, cost_per_unit, vendor_id } =
req.body`; a field missing from the JSON body destructures to
`undefined`. -/
structure RequestBody where
  name : JSValue
  unit : JSValue
  cost_per_unit : JSValue
  vendor_id : JSValue
deriving DecidableEq, Repr

/-- `router.post("/")` of the ingredient route: required-field check by
truthiness (`cost_per_unit` by `=== undefined`), then the three type
checks, then the vendor existence lookup, then the insert with `name`
trimmed, answered 201 with the `{message, ingredient}` envelope. -/
def postIngredient (db : DBState) (body : RequestBody) : PostResult :=
  if !body.name.truthy || !body.unit.truthy || body.cost_per_unit == JSValue.undef
      || !body.vendor_id.truthy then
    ⟨⟨400, .msg "Missing required fields: name, unit, cost_per_unit, vendor_id"⟩, db, []⟩
  else if !body.name.isString || !body.unit.isString then
    ⟨⟨400, .msg "Name and unit must be strings"⟩, db, []⟩
  else if !body.cost_per_unit.isNumberType || body.cost_per_unit.ltZero then
    ⟨⟨400, .msg "Cost per unit must be a positive number"⟩, db, []⟩
  else if !body.vendor_id.isNumberType || body.vendor_id.leZero then
    ⟨⟨400, .msg "Vendor ID must be a positive number"⟩, db, []⟩
  else if !(db.vendorExists body.vendor_id) then
    ⟨⟨400, .msg "Vendor not found"⟩, db, [.vendorLookup body.vendor_id]⟩
  else
    let ins := db.insertIngredient body.name.trimStr body.unit body.cost_per_unit body.vendor_id
    ⟨⟨201, .created "Ingredient created successfully" ins.1⟩, ins.2,
      [.vendorLookup body.vendor_id, .ingredientInsert ins.1]⟩

/-- `router.get("/:id")` of the ingredient route: `parseInt` the path
parameter (400 on `NaN`), `findOne` by id (404 when absent), otherwise
the bare row with no envelope. -/
def getIngredientById (db : DBState) (idParam : String) : HttpResponse × List DBEvent :=
  match parseIntJS idParam with
  | none => (⟨400, .msg "Invalid ingredient ID"⟩, [])
  | some id =>
    match db.findIngredient id with
    | none => (⟨404, .msg "Ingredient not found"⟩, [.ingredientFindOne id])
    | some r => (⟨200, .row r⟩, [.ingredientFindOne id])

/-! ## Data-access layer

`src/unnamed/part_000`: `hasEmptyArray`, `PantryView`, `PantryTable`,
and the DAO base classes over the Massive ORM. The Massive table is a
record of functions; every wrapper method returns its value together
with the list of queries it issued against that table, so that the
empty-array short-circuits ("no query issued") are provable. -/

/-- A value a criteria field can be mapped to: a scalar, or an array of
scalars (an `IN`-list; the `and`/`or` sub-group arrays behave the same
for the emptiness check). -/
inductive CriteriaValue where
  | scalar (v : JSValue)
  | arr (vs : List JSValue)
deriving DecidableEq, Repr

/-- `SearchCriteria<T>`: a mapping from field names to scalars or
arrays of scalars. -/
abbrev SearchCriteria := List (String × CriteriaValue)

/-- `hasEmptyArray(criteria)`: lodash `some` over the criteria values,
true when some value is an array of length 0 (guard against the unsafe
`IN ()` query). -/
def hasEmptyArray (c : SearchCriteria) : Bool :=
  c.any (fun p =>
    match p.2 with
    | .arr vs => vs.isEmpty
    | .scalar _ => false)

/-- Retrieval / result-processing options, as a JavaScript options
object (field name to value). -/
abbrev Opts := List (String × JSValue)

/-- The object spread `{...d, ...o}`: keys of `o` override keys of
`d`. -/
def mergeOpts (d o : Opts) : Opts :=
  d.filter (fun p => !(o.any (fun q => q.1 == p.1))) ++ o

/-- A primary-key argument, `number | string`. -/
inductive DbId where
  | num (q : ℚ)
  | str (s : String)
deriving DecidableEq, Repr

/-- The argument of `findOne`: `SearchCriteria<T> | number | string`. -/
inductive FindOneArg where
  | crit (c : SearchCriteria)
  | ident (i : DbId)
deriving DecidableEq, Repr

/-- A query issued against the underlying Massive table, with its
arguments as passed. -/
inductive TableQuery (Ins Upd : Type) where
  | qFind (c : Option SearchCriteria) (o : Opts)
  | qFindOne (a : FindOneArg)
  | qCount (c : Option SearchCriteria)
  | qInsertOne (r : Ins) (o : Option Opts)
  | qInsertMany (rs : List Ins) (o : Option Opts)
  | qSave (r : Ins)
  | qUpdateOne (i : DbId) (u : Upd) (o : Option Opts)
  | qUpdateMany (c : SearchCriteria) (u : Upd)
  | qDestroyOne (i : DbId)
  | qDestroyMany (c : SearchCriteria)
deriving DecidableEq, Repr

/-- `MassiveTableType<T, Insert, Update>`: the underlying ORM table as
a record of functions, one per overload (the TypeScript overloads on
criteria vs id are split into separate fields). `count` returns
`string | null` as Massive does. -/
structure MassiveTable (T Ins Upd : Type) where
  find : Option SearchCriteria → Opts → List T
  findOne : FindOneArg → Option T
  count : Option SearchCriteria → Option String
  insertOne : Ins → Option Opts → Option T
  insertMany : List Ins → Option Opts → List T
  save : Ins → T
  updateOne : DbId → Upd → Option Opts → Option T
  updateMany : SearchCriteria → Upd → List T
  destroyOne : DbId → Option T
  destroyMany : SearchCriteria → List T

/-- A named parametrized script: parameter object in, rows out. -/
abbrev ScriptFn := List (String × JSValue) → List JSValue

/-- The `PantryView` class state: the wrapped table, the scripts object
(`Option` so the `!this.scripts` guard is expressible), and the default
retrieval options. `PantryTable` adds no fields, only methods. -/
structure PantryView (T Ins Upd : Type) where
  table : MassiveTable T Ins Upd
  scripts : Option (List (String × ScriptFn))
  defaultRetrievalOptions : Opts

/-- `PantryView.findOne`: delegates to `this.table.findOne(criteria)`;
the `options` parameter is accepted but not forwarded, and no
empty-array short-circuit is applied. -/
def PantryView.findOne (v : PantryView T Ins Upd) (criteria : FindOneArg)
    (options : Option Opts) : Option T × List (TableQuery Ins Upd) :=
  (v.table.findOne criteria, [.qFindOne criteria])

/-- `PantryView.find`: empty-array criteria short-circuit to `[]`
without a query; otherwise `table.find` with the defaults spread under
the call options. -/
def PantryView.find (v : PantryView T Ins Upd) (criteria : Option SearchCriteria)
    (options : Option Opts) : List T × List (TableQuery Ins Upd) :=
  match criteria with
  | some c =>
    if hasEmptyArray c then ([], [])
    else
      (v.table.find (some c) (mergeOpts v.defaultRetrievalOptions (options.getD [])),
        [.qFind (some c) (mergeOpts v.defaultRetrievalOptions (options.getD []))])
  | none =>
    (v.table.find none (mergeOpts v.defaultRetrievalOptions (options.getD [])),
      [.qFind none (mergeOpts v.defaultRetrievalOptions (options.getD []))])

/-- `PantryView.count`: empty-array criteria short-circuit to the
string `'0'` (Massive's count type is `string | null`) without a
query. -/
def PantryView.count (v : PantryView T Ins Upd) (criteria : Option SearchCriteria) :
    Option String × List (TableQuery Ins Upd) :=
  match criteria with
  | some c =>
    if hasEmptyArray c then (some "0", [])
    else (v.table.count (some c), [.qCount (some c)])
  | none => (v.table.count none, [.qCount none])

/-- `PantryView.script`: throws when the scripts object is missing,
throws a does-not-exist error naming the script when the name is not a
property of the scripts object, otherwise returns the callable. -/
def PantryView.script (v : PantryView T Ins Upd) (scriptName : String) :
    Except String ScriptFn :=
  match v.scripts with
  | none => .error "No scripts available for this table"
  | some scr =>
    match scr.lookup scriptName with
    | none => .error ("Script " ++ scriptName ++ " does not exist on this table")
    | some f => .ok f

/-- `PantryTable.insertOne`: direct delegation. -/
def PantryTable.insertOne (v : PantryView T Ins Upd) (object : Ins)
    (options : Option Opts) : Option T × List (TableQuery Ins Upd) :=
  (v.table.insertOne object options, [.qInsertOne object options])

/-- `PantryTable.insert` (batch): empty input short-circuits to `[]`
without a query. -/
def PantryTable.insert (v : PantryView T Ins Upd) (objects : List Ins)
    (options : Option Opts) : List T × List (TableQuery Ins Upd) :=
  if objects.isEmpty then ([], [])
  else (v.table.insertMany objects options, [.qInsertMany objects options])

/-- `PantryTable.save`: direct delegation to the upsert. -/
def PantryTable.save (v : PantryView T Ins Upd) (object : Ins) :
    T × List (TableQuery Ins Upd) :=
  (v.table.save object, [.qSave object])

/-- `PantryTable.updateOne`: update by id, direct delegation. -/
def PantryTable.updateOne (v : PantryView T Ins Upd) (id : DbId) (updates : Upd)
    (options : Option Opts) : Option T × List (TableQuery Ins Upd) :=
  (v.table.updateOne id updates options, [.qUpdateOne id updates options])

/-- `PantryTable.update` (by criteria): empty-array criteria
short-circuit to `[]` without a query. -/
def PantryTable.update (v : PantryView T Ins Upd) (criteria : SearchCriteria)
    (updates : Upd) : List T × List (TableQuery Ins Upd) :=
  if hasEmptyArray criteria then ([], [])
  else (v.table.updateMany criteria updates, [.qUpdateMany criteria updates])

/-- `PantryTable.destroyOne`: destroy by id, direct delegation. -/
def PantryTable.destroyOne (v : PantryView T Ins Upd) (id : DbId) :
    Option T × List (TableQuery Ins Upd) :=
  (v.table.destroyOne id, [.qDestroyOne id])

/-- `PantryTable.destroy` (by criteria): empty-array criteria
short-circuit to `[]` without a query. -/
def PantryTable.destroy (v : PantryView T Ins Upd) (criteria : SearchCriteria) :
    List T × List (TableQuery Ins Upd) :=
  if hasEmptyArray criteria then ([], [])
  else (v.table.destroyMany criteria, [.qDestroyMany criteria])

/-- JavaScript `Number(s)` on a string (the decimal fragment the
application can receive from Massive's count): trimmed empty string is
`0`, otherwise the whole string must be an optionally signed decimal
numeral `digits [. digits]`; anything else is `NaN` (`none`). -/
def jsNumberOfString (s : String) : Option ℚ :=
  let cs := (s.toList.dropWhile isJsWhitespace).reverse.dropWhile isJsWhitespace |>.reverse
  if cs.isEmpty then some 0
  else
    let signAndRest : Bool × List Char :=
      match cs with
      | '-' :: r => (true, r)
      | '+' :: r => (false, r)
      | r => (false, r)
    let intPart := signAndRest.2.takeWhile Char.isDigit
    let rest := signAndRest.2.drop intPart.length
    match rest with
    | [] =>
      if intPart.isEmpty then none
      else some (decimalToRat signAndRest.1 intPart [])
    | '.' :: frac =>
      if frac.all Char.isDigit && !(intPart.isEmpty && frac.isEmpty) then
        some (decimalToRat signAndRest.1 intPart frac)
      else none
    | _ => none

/-- JavaScript `Number(count)` where `count : string | null`:
`Number(null)` is `0`. `NaN` is `none`. -/
def jsNumber : Option String → Option ℚ
  | none => some 0
  | some s => jsNumberOfString s

/-- The state of a concrete DAO (`CreateAndReadDAO` / `BaseDAO`): the
`PantryTable` that `getTable` yields, plus the three overridable hooks
`defaultMapper`, `sanitizeInsertRecord`, `sanitizeUpdateRecord` (each
defaulting to the identity in the source). -/
structure DAO (T Ins Upd : Type) where
  view : PantryView T Ins Upd
  defaultMapper : T → T
  sanitizeInsertRecord : Ins → Ins
  sanitizeUpdateRecord : Upd → Upd

/-- `CreateAndReadDAO.findById`: `table.findOne(id)` then
`defaultMapper` on a found record. -/
def DAO.findById (d : DAO T Ins Upd) (id : DbId) :
    Option T × List (TableQuery Ins Upd) :=
  let r := PantryView.findOne d.view (.ident id) none
  (r.1.map d.defaultMapper, r.2)

/-- `CreateAndReadDAO.findOneFor`: `table.findOne(criteria)` then
`defaultMapper` on a found record. -/
def DAO.findOneFor (d : DAO T Ins Upd) (criteria : SearchCriteria) :
    Option T × List (TableQuery Ins Upd) :=
  let r := PantryView.findOne d.view (.crit criteria) none
  (r.1.map d.defaultMapper, r.2)

/-- `CreateAndReadDAO.findAll`: `table.find(undefined, options)` then
`defaultMapper` on each record. -/
def DAO.findAll (d : DAO T Ins Upd) (options : Option Opts) :
    List T × List (TableQuery Ins Upd) :=
  let r := PantryView.find d.view none options
  (r.1.map d.defaultMapper, r.2)

/-- `CreateAndReadDAO.findAllFor`: `table.find(criteria, options)` then
`defaultMapper` on each record. -/
def DAO.findAllFor (d : DAO T Ins Upd) (criteria : SearchCriteria)
    (options : Option Opts) : List T × List (TableQuery Ins Upd) :=
  let r := PantryView.find d.view (some criteria) options
  (r.1.map d.defaultMapper, r.2)

/-- `CreateAndReadDAO.count`: `Number(table.count(criteria))`; a `NaN`
result is logged (`console.error`) and returned as-is rather than
thrown. The middle component is the error log. -/
def DAO.count (d : DAO T Ins Upd) (criteria : Option SearchCriteria) :
    Option ℚ × List String × List (TableQuery Ins Upd) :=
  let r := PantryView.count d.view criteria
  match jsNumber r.1 with
  | none => (none, ["Massive count returned NaN"], r.2)
  | some q => (some q, [], r.2)

/-- `CreateAndReadDAO.insert`: sanitize, `table.insertOne`, then
`defaultMapper` on the created record. -/
def DAO.insert (d : DAO T Ins Upd) (record : Ins) (options : Option Opts) :
    Option T × List (TableQuery Ins Upd) :=
  let r := PantryTable.insertOne d.view (d.sanitizeInsertRecord record) options
  (r.1.map d.defaultMapper, r.2)

/-- `CreateAndReadDAO.batchInsert`: sanitize each, `table.insert`, warn
(`console.warn`) on a length mismatch, then `defaultMapper` on each
created record. The middle component is the warn log. -/
def DAO.batchInsert (d : DAO T Ins Upd) (records : List Ins) :
    List T × List String × List (TableQuery Ins Upd) :=
  let sanitizedRecords := records.map d.sanitizeInsertRecord
  let r := PantryTable.insert d.view sanitizedRecords none
  let warnings :=
    if r.1.length != sanitizedRecords.length then
      ["Number of inserted records does not match requested number to be inserted"]
    else []
  (r.1.map d.defaultMapper, warnings, r.2)

/-- `CreateAndReadDAO.save`: sanitize, `table.save`, then
`defaultMapper` on the upserted record. -/
def DAO.save (d : DAO T Ins Upd) (record : Ins) :
    T × List (TableQuery Ins Upd) :=
  let r := PantryTable.save d.view (d.sanitizeInsertRecord record)
  (d.defaultMapper r.1, r.2)

/-- `BaseDAO.updateById`: sanitize, `table.updateOne(id, record)`, then
`defaultMapper` on the updated record. -/
def DAO.updateById (d : DAO T Ins Upd) (id : DbId) (record : Upd) :
    Option T × List (TableQuery Ins Upd) :=
  let r := PantryTable.updateOne d.view id (d.sanitizeUpdateRecord record) none
  (r.1.map d.defaultMapper, r.2)

/-- `BaseDAO.update`: sanitize, `table.update(criteria, record)`, then
`defaultMapper` on each updated record. -/
def DAO.update (d : DAO T Ins Upd) (criteria : SearchCriteria) (record : Upd) :
    List T × List (TableQuery Ins Upd) :=
  let r := PantryTable.update d.view criteria (d.sanitizeUpdateRecord record)
  (r.1.map d.defaultMapper, r.2)

/-- `BaseDAO.removeById`: returns `table.destroyOne(id)` directly —
no `defaultMapper` is applied. -/
def DAO.removeById (d : DAO T Ins Upd) (id : DbId) :
    Option T × List (TableQuery Ins Upd) :=
  PantryTable.destroyOne d.view id

/-- `BaseDAO.removeAllFor`: returns `table.destroy(criteria)` directly
— no `defaultMapper` is applied. -/
def DAO.removeAllFor (d : DAO T Ins Upd) (criteria : SearchCriteria) :
    List T × List (TableQuery Ins Upd) :=
  PantryTable.destroy d.view criteria

/-! ## Form UI

`src/ui/src/components/forms/BasicForm.tsx`. React state is modelled
as an explicit `FormState`; the sequence of `setState` calls inside
`handleSubmit` becomes sequential record updates (later assignments to
the same field win, as the last enqueued React state update does). The
fetch outcome is an input to the handler; the payload that would be
sent is part of the result. -/

/-- The controlled form fields (`IngredientFormData`), all strings. -/
structure FormData where
  name : String
  unit : String
  cost_per_unit : String
  vendor_id : String
deriving DecidableEq, Repr

/-- Per-field validation errors (`Partial<IngredientFormData>`):
`none` when the key is absent. -/
structure FormErrors where
  name : Option String
  unit : Option String
  cost_per_unit : Option String
  vendor_id : Option String
deriving DecidableEq, Repr

/-- The empty errors object `{}`. -/
def noFormErrors : FormErrors := ⟨none, none, none, none⟩

/-- `Object.keys(errors).length === 0`: no key was assigned. -/
def FormErrors.isEmptyErrors (e : FormErrors) : Bool :=
  e.name.isNone && e.unit.isNone && e.cost_per_unit.isNone && e.vendor_id.isNone

/-- The component state: form data, errors, the `isSubmitting` flag and
the `submitMessage` notice (`some (isSuccess, text)` or `none`). -/
structure FormState where
  formData : FormData
  errors : FormErrors
  isSubmitting : Bool
  submitMessage : Option (Bool × String)
deriving DecidableEq, Repr

/-- The cleared form data. -/
def emptyFormData : FormData := ⟨"", "", "", ""⟩

/-- `validateForm`: name required after trim; unit required;
cost_per_unit required after trim and must `parseFloat` to a
non-negative number; vendor required. -/
def validateForm (fd : FormData) : FormErrors :=
  { name := if jsTrimString fd.name == "" then some "Ingredient name is required" else none
    unit := if fd.unit == "" then some "Unit is required" else none
    cost_per_unit :=
      if jsTrimString fd.cost_per_unit == "" then some "Cost per unit is required"
      else
        match parseFloatJS fd.cost_per_unit with
        | none => some "Please enter a valid positive number"
        | some c => if c < 0 then some "Please enter a valid positive number" else none
    vendor_id := if fd.vendor_id == "" then some "Vendor is required" else none }

/-- `handleClear`: reset the fields, the errors and the notice. -/
def handleClear (s : FormState) : FormState :=
  { s with formData := emptyFormData, errors := noFormErrors, submitMessage := none }

/-- The JSON payload `fetch` would send. -/
structure SentPayload where
  name : String
  unit : String
  cost_per_unit : Option ℚ
  vendor_id : Option Int
deriving DecidableEq, Repr

/-- The outcome of the `fetch` call: the promise resolves with
`response.ok` and the parsed error body's optional `message`, or it
rejects (network failure). -/
inductive FetchOutcome where
  | resolved (ok : Bool) (serverMessage : Option String)
  | rejected
deriving DecidableEq, Repr

/-- `errorData.message || 'Failed to add ingredient'`: the fallback
fires on an absent or falsy (empty) message. -/
def serverMessageOrFallback : Option String → String
  | some t => if t == "" then "Failed to add ingredient" else t
  | none => "Failed to add ingredient"

/-- `handleSubmit`: validate (abort with errors set and no network call
on failure); otherwise set `isSubmitting`, clear the notice, send the
payload, then: on `response.ok` set the success notice and call
`handleClear()`; on a non-ok response set the server's message or the
fallback; on rejection set the network-error notice; finally reset
`isSubmitting`. -/
def handleSubmit (s : FormState) (outcome : FetchOutcome) :
    FormState × Option SentPayload :=
  let errs := validateForm s.formData
  if !errs.isEmptyErrors then
    ({ s with errors := errs }, none)
  else
    let s₁ : FormState :=
      { s with errors := errs, isSubmitting := true, submitMessage := none }
    let payload : SentPayload :=
      ⟨jsTrimString s.formData.name, s.formData.unit,
        parseFloatJS s.formData.cost_per_unit, parseIntJS s.formData.vendor_id⟩
    let s₂ : FormState :=
      match outcome with
      | .resolved true _ =>
        handleClear { s₁ with submitMessage := some (true, "Ingredient added successfully!") }
      | .resolved false m =>
        { s₁ with submitMessage := some (false, serverMessageOrFallback m) }
      | .rejected =>
        { s₁ with submitMessage := some (false, "Network error. Please try again.") }
    ({ s₂ with isSubmitting := false }, some payload)

/-! ## Claims about the route layer -/

/-- C1: for every POST /ingredient request whose body has `name` and
`unit` as non-empty strings, `cost_per_unit` a non-negative number,
`vendor_id` a positive number resolving to an existing entity row, the
handler inserts a row whose stored name is the request name trimmed of
surrounding whitespace (`unit`, `cost_per_unit`, `vendor_id` unchanged)
and responds 201 with the `{message, ingredient}` envelope containing
the created row. -/
theorem c1_post_valid_inserts_trimmed (db : DBState) (body : RequestBody)
    (s u : String) (q v : ℚ)
    (hname : body.name = .str s) (hs : s ≠ "")
    (hunit : body.unit = .str u) (hu : u ≠ "")
    (hcost : body.cost_per_unit = .num q) (hq : 0 ≤ q)
    (hvend : body.vendor_id = .num v) (hv : 0 < v)
    (hex : db.entities.contains v = true) :
    postIngredient db body =
      ⟨⟨201, .created "Ingredient created successfully"
          ⟨db.nextId, .str (jsTrimString s), .str u, .num q, .num v⟩⟩,
        ⟨db.entities,
          db.ingredients ++ [⟨db.nextId, .str (jsTrimString s), .str u, .num q, .num v⟩],
          db.nextId + 1⟩,
        [.vendorLookup (.num v),
          .ingredientInsert ⟨db.nextId, .str (jsTrimString s), .str u, .num q, .num v⟩]⟩ := by
  obtain ⟨bn, bu, bc, bv⟩ := body
  simp only at hname hunit hcost hvend
  subst hname hunit hcost hvend
  have hs' : (s == "") = false := beq_eq_false_iff_ne.mpr hs
  have hu' : (u == "") = false := beq_eq_false_iff_ne.mpr hu
  have hv0 : (v == 0) = false := beq_eq_false_iff_ne.mpr (ne_of_gt hv)
  have hqn : decide (q < 0) = false := decide_eq_false (not_lt.mpr hq)
  have hvn : decide (v ≤ 0) = false := decide_eq_false (not_le.mpr hv)
  have hexm : v ∈ db.entities := by simpa using hex
  simp [postIngredient, JSValue.truthy, JSValue.isString, JSValue.isNumberType,
    JSValue.ltZero, JSValue.leZero, DBState.vendorExists, DBState.insertIngredient,
    JSValue.trimStr, hs', hu', hv0, hqn, hvn, hexm]

/-- C1 witness: the spec scenario — POST `{name: " Tomatoes ", unit:
"lb", cost_per_unit: 2.5, vendor_id: 1}` against a database with vendor
1 yields 201 and a stored name `"Tomatoes"`. -/
theorem c1_post_valid_inserts_trimmed_witness :
    (⟨[1], [], 1⟩ : DBState).entities.contains (1 : ℚ) = true ∧
    postIngredient ⟨[1], [], 1⟩ ⟨.str " Tomatoes ", .str "lb", .num (mkRat 5 2), .num 1⟩ =
      ⟨⟨201, .created "Ingredient created successfully"
          ⟨1, .str "Tomatoes", .str "lb", .num (mkRat 5 2), .num 1⟩⟩,
        ⟨[1], [⟨1, .str "Tomatoes", .str "lb", .num (mkRat 5 2), .num 1⟩], 2⟩,
        [.vendorLookup (.num 1),
          .ingredientInsert ⟨1, .str "Tomatoes", .str "lb", .num (mkRat 5 2), .num 1⟩]⟩ :=
  ⟨by decide,
    by
      have h := c1_post_valid_inserts_trimmed ⟨[1], [], 1⟩
        ⟨.str " Tomatoes ", .str "lb", .num (mkRat 5 2), .num 1⟩
        " Tomatoes " "lb" (mkRat 5 2) 1 rfl (by decide) rfl (by decide) rfl (by decide)
        rfl (by decide) (by decide)
      simpa using h⟩

/-- C3: every POST /ingredient request answered 400 leaves the database
unchanged and performs no insert; moreover, in every execution of the
handler, any insert call is strictly preceded by the vendor existence
lookup in the event order. -/
theorem c3_post_reject_no_insert (db : DBState) (body : RequestBody) :
    ((postIngredient db body).response.status = 400 →
      (postIngredient db body).db = db ∧
      ∀ e ∈ (postIngredient db body).events, e.isInsertEvent = false) ∧
    (∀ (n : Nat) (r : IngredientRow),
      (postIngredient db body).events[n]? = some (.ingredientInsert r) →
      ∃ m, m < n ∧ ∃ w, (postIngredient db body).events[m]? = some (.vendorLookup w)) := by
  constructor
  · intro h400
    unfold postIngredient at *
    split_ifs at * <;> simp_all [DBEvent.isInsertEvent]
  · intro n r h
    unfold postIngredient at h ⊢
    split_ifs at h ⊢ <;>
      first
      | (simp at h; done)
      | (cases n with
         | zero => simp at h
         | succ m =>
           cases m with
           | zero => exact ⟨0, Nat.zero_lt_one, body.vendor_id, by simp⟩
           | succ k => simp at h)

/-- C3 witness: an all-missing body is rejected with 400 and the
database is unchanged. -/
theorem c3_post_reject_no_insert_witness :
    (postIngredient ⟨[1], [], 1⟩ ⟨.undef, .undef, .undef, .undef⟩).response.status = 400 ∧
    (postIngredient ⟨[1], [], 1⟩ ⟨.undef, .undef, .undef, .undef⟩).db = ⟨[1], [], 1⟩ :=
  ⟨by decide,
    ((c3_post_reject_no_insert ⟨[1], [], 1⟩ ⟨.undef, .undef, .undef, .undef⟩).1 (by decide)).1⟩

/-- C4 counterexample: the body `{name: "Salt", unit: "g",
cost_per_unit: 1, vendor_id: 0}` has `vendor_id` a non-positive number
as its only violation, yet — `0` being falsy — the handler answers with
the missing-required-fields message, not the vendor-id-specific one. -/
theorem c4_vendor_zero_counterexample :
    (postIngredient ⟨[1], [], 1⟩ ⟨.str "Salt", .str "g", .num 1, .num 0⟩).response =
      ⟨400, .msg "Missing required fields: name, unit, cost_per_unit, vendor_id"⟩ ∧
    (postIngredient ⟨[1], [], 1⟩ ⟨.str "Salt", .str "g", .num 1, .num 0⟩).response ≠
      ⟨400, .msg "Vendor ID must be a positive number"⟩ := by decide

/-- C4 amended: provided every field is truthy and `cost_per_unit` is
not undefined (so the required-fields check passes), each distinct type
violation yields its own distinct 400 message — non-string name/unit,
non-number or negative cost, non-number or non-positive vendor id — and
in particular a request whose `vendor_id` is a negative (hence truthy)
number receives the vendor-id-specific message; `vendor_id = 0` is
falsy and is instead caught by the required-fields check. -/
theorem c4_distinct_messages (db : DBState) (body : RequestBody)
    (hn : body.name.truthy = true) (hu : body.unit.truthy = true)
    (hc : body.cost_per_unit ≠ .undef) (hv : body.vendor_id.truthy = true) :
    ((body.name.isString = false ∨ body.unit.isString = false) →
      (postIngredient db body).response = ⟨400, .msg "Name and unit must be strings"⟩) ∧
    (body.name.isString = true → body.unit.isString = true →
      (body.cost_per_unit.isNumberType = false ∨ body.cost_per_unit.ltZero = true) →
      (postIngredient db body).response = ⟨400, .msg "Cost per unit must be a positive number"⟩) ∧
    (body.name.isString = true → body.unit.isString = true →
      body.cost_per_unit.isNumberType = true → body.cost_per_unit.ltZero = false →
      (body.vendor_id.isNumberType = false ∨ body.vendor_id.leZero = true) →
      (postIngredient db body).response = ⟨400, .msg "Vendor ID must be a positive number"⟩) ∧
    (∀ w : ℚ, body.vendor_id = .num w → w < 0 →
      body.name.isString = true → body.unit.isString = true →
      body.cost_per_unit.isNumberType = true → body.cost_per_unit.ltZero = false →
      (postIngredient db body).response = ⟨400, .msg "Vendor ID must be a positive number"⟩) := by
  have hc' : (body.cost_per_unit == JSValue.undef) = false := beq_eq_false_iff_ne.mpr hc
  refine ⟨fun h => ?_, fun h1 h2 h3 => ?_, fun h1 h2 h3 h4 h5 => ?_,
    fun w hw hwneg h1 h2 h3 h4 => ?_⟩
  · rcases h with h | h <;> simp [postIngredient, hn, hu, hv, hc', h]
  · rcases h3 with h3 | h3 <;> simp [postIngredient, hn, hu, hv, hc', h1, h2, h3]
  · rcases h5 with h5 | h5 <;> simp [postIngredient, hn, hu, hv, hc', h1, h2, h3, h4, h5]
  · have hvw : (JSValue.num w).truthy = true := hw ▸ hv
    have h5 : (JSValue.num w).leZero = true := by
      simp only [JSValue.leZero, decide_eq_true_eq]
      exact le_of_lt hwneg
    simp [postIngredient, hn, hu, hc', h1, h2, h3, h4, hw, hvw, h5]

/-- C4 amended witness: `vendor_id = -5` (truthy, negative) receives
the vendor-id-specific message. -/
theorem c4_distinct_messages_witness :
    (JSValue.num (-5)).truthy = true ∧
    (postIngredient ⟨[1], [], 1⟩ ⟨.str "Salt", .str "g", .num 1, .num (-5)⟩).response =
      ⟨400, .msg "Vendor ID must be a positive number"⟩ :=
  ⟨by decide,
    (c4_distinct_messages ⟨[1], [], 1⟩ ⟨.str "Salt", .str "g", .num 1, .num (-5)⟩
      (by decide) (by decide) (by decide) (by decide)).2.2.2 (-5) rfl (by decide)
      (by decide) (by decide) (by decide) (by decide)⟩

/-- C5: GET /ingredient/:id answers 400 "Invalid ingredient ID" when
the id does not parse as an integer, 404 "Ingredient not found" when it
parses but no row has that id, and the bare row object (no envelope)
when the row exists. -/
theorem c5_get_by_id (db : DBState) (idParam : String) :
    (parseIntJS idParam = none →
      (getIngredientById db idParam).1 = ⟨400, .msg "Invalid ingredient ID"⟩) ∧
    (∀ n, parseIntJS idParam = some n → db.findIngredient n = none →
      (getIngredientById db idParam).1 = ⟨404, .msg "Ingredient not found"⟩) ∧
    (∀ n r, parseIntJS idParam = some n → db.findIngredient n = some r →
      (getIngredientById db idParam).1 = ⟨200, .row r⟩) := by
  refine ⟨fun h => ?_, fun n h1 h2 => ?_, fun n r h1 h2 => ?_⟩ <;>
    simp [getIngredientById, *]

/-- C5 witness: the spec example — `GET /ingredient/abc` is answered
400 "Invalid ingredient ID". -/
theorem c5_get_by_id_witness :
    parseIntJS "abc" = none ∧
    (getIngredientById ⟨[], [], 1⟩ "abc").1 = ⟨400, .msg "Invalid ingredient ID"⟩ :=
  ⟨by decide, (c5_get_by_id ⟨[], [], 1⟩ "abc").1 (by decide)⟩

/-! ## Claim about the form UI -/

/-- C6 (code bug): for a submission passing client-side validation, a
2xx response clears every form field — but no success notice is shown:
`handleSubmit` sets the success message and then calls `handleClear()`,
which immediately resets `submitMessage` to null, so the final state
carries no notice (the spec's "shows a success notice" is the evident
intent, contradicted by the clear). The non-2xx and network-failure
branches behave as specified. -/
theorem c6_success_notice_lost :
    (handleSubmit ⟨⟨"Tomatoes", "lb", "2.5", "1"⟩, noFormErrors, false, none⟩
        (.resolved true none)).1 =
      ⟨emptyFormData, noFormErrors, false, none⟩ ∧
    (handleSubmit ⟨⟨"Tomatoes", "lb", "2.5", "1"⟩, noFormErrors, false, none⟩
        (.resolved false (some "Vendor not found"))).1 =
      ⟨⟨"Tomatoes", "lb", "2.5", "1"⟩, noFormErrors, false, some (false, "Vendor not found")⟩ ∧
    (handleSubmit ⟨⟨"Tomatoes", "lb", "2.5", "1"⟩, noFormErrors, false, none⟩ .rejected).1 =
      ⟨⟨"Tomatoes", "lb", "2.5", "1"⟩, noFormErrors, false,
        some (false, "Network error. Please try again.")⟩ := by decide

/-! ## Claims about the data-access layer -/

/-- A concrete integer-typed table instantiating the generic layer in
witnesses. -/
def witnessTable : MassiveTable Int Int Int :=
  ⟨fun _ _ => [7], fun _ => some 7, fun _ => some "1",
   fun _ _ => some 7, fun _ _ => [7], fun _ => 7,
   fun _ _ _ => some 7, fun _ _ => [7], fun _ => some 7, fun _ => [7]⟩

/-- A `PantryView` over `witnessTable` with no scripts and no default
retrieval options. -/
def witnessView : PantryView Int Int Int := ⟨witnessTable, none, []⟩

/-- C2: criteria mapping some field to an empty array make
`PantryView.find` return the empty list, `PantryView.count` return the
count zero (the string `'0'` of the `string | null` count interface),
and `PantryTable.update` / `PantryTable.destroy` return the empty list
— in every case with an empty query log, i.e. without invoking the
underlying table. -/
theorem c2_empty_array_short_circuit {T Ins Upd : Type}
    (v : PantryView T Ins Upd) (c : SearchCriteria) (opts : Option Opts) (upd : Upd)
    (h : hasEmptyArray c = true) :
    PantryView.find v (some c) opts = ([], []) ∧
    PantryView.count v (some c) = (some "0", []) ∧
    PantryTable.update v c upd = ([], []) ∧
    PantryTable.destroy v c = ([], []) := by
  simp [PantryView.find, PantryView.count, PantryTable.update, PantryTable.destroy, h]

/-- C2 witness: the criteria `{id: []}` short-circuit all four
operations on the concrete witness view. -/
theorem c2_empty_array_short_circuit_witness :
    hasEmptyArray [("id", .arr [])] = true ∧
    (PantryView.find witnessView (some [("id", .arr [])]) none = ([], []) ∧
     PantryView.count witnessView (some [("id", .arr [])]) = (some "0", []) ∧
     PantryTable.update witnessView [("id", .arr [])] 0 = ([], []) ∧
     PantryTable.destroy witnessView [("id", .arr [])] = ([], [])) :=
  ⟨by decide,
    c2_empty_array_short_circuit witnessView [("id", CriteriaValue.arr [])] none 0 (by decide)⟩

/-- C10: `PantryView.findOne` forwards its criteria argument unchanged
to the underlying table — with no empty-array short-circuit, for every
criteria including ones containing an empty array — and discards its
`options` argument entirely: the result is the same for any two options
values and never forwards options to the table. -/
theorem c10_findOne_no_short_circuit {T Ins Upd : Type}
    (v : PantryView T Ins Upd) (criteria : FindOneArg) (o₁ o₂ : Option Opts) :
    PantryView.findOne v criteria o₁ = (v.table.findOne criteria, [.qFindOne criteria]) ∧
    PantryView.findOne v criteria o₁ = PantryView.findOne v criteria o₂ :=
  ⟨rfl, rfl⟩

/-- C9: invoking the script accessor with a name that is not defined on
the table's scripts object fails with an error identifying the missing
script, rather than returning a callable or failing silently. -/
theorem c9_undefined_script_error {T Ins Upd : Type}
    (v : PantryView T Ins Upd) (scr : List (String × ScriptFn)) (scriptName : String)
    (hscr : v.scripts = some scr) (habs : scr.lookup scriptName = none) :
    PantryView.script v scriptName =
      .error ("Script " ++ scriptName ++ " does not exist on this table") := by
  simp [PantryView.script, hscr, habs]

/-- A `PantryView` carrying one named script, for the C9 witness. -/
def witnessScriptedView : PantryView Int Int Int :=
  ⟨witnessTable, some [("findAllByVendor", fun _ => [])], []⟩

/-- C9 witness: asking the scripted witness view for the undefined
script name `missingScript` yields the does-not-exist error naming
it. -/
theorem c9_undefined_script_error_witness :
    ([("findAllByVendor", fun _ => [])] : List (String × ScriptFn)).lookup "missingScript" = none ∧
    PantryView.script witnessScriptedView "missingScript" =
      .error ("Script " ++ "missingScript" ++ " does not exist on this table") :=
  ⟨rfl, c9_undefined_script_error witnessScriptedView [("findAllByVendor", fun _ => [])]
    "missingScript" rfl rfl⟩

/-- C8: when the count value produced by the table layer does not parse
as a number (`Number(...)` is `NaN`), `DAO.count` logs the condition
and returns the non-numeric sentinel (`NaN`, here `none`) to its caller
— it is a total function, so nothing is thrown. -/
theorem c8_count_nan {T Ins Upd : Type} (d : DAO T Ins Upd) (criteria : Option SearchCriteria)
    (h : jsNumber (PantryView.count d.view criteria).1 = none) :
    (DAO.count d criteria).1 = none ∧
    (DAO.count d criteria).2.1 = ["Massive count returned NaN"] := by
  simp [DAO.count, h]

/-- A DAO whose table's count yields the non-numeric string "abc", for
the C8 witness. -/
def witnessNanDAO : DAO Int Int Int :=
  ⟨⟨{ witnessTable with count := fun _ => some "abc" }, none, []⟩, id, id, id⟩

/-- C8 witness: counting on the witness DAO yields the `NaN` sentinel
and the error log entry. -/
theorem c8_count_nan_witness :
    jsNumber (PantryView.count witnessNanDAO.view none).1 = none ∧
    ((DAO.count witnessNanDAO none).1 = none ∧
     (DAO.count witnessNanDAO none).2.1 = ["Massive count returned NaN"]) :=
  ⟨by decide, c8_count_nan witnessNanDAO none (by decide)⟩

/-- C7 amended: the rows returned by `findById`, `findOneFor`,
`findAll`, `findAllFor`, `insert`, `batchInsert`, `save`, `update` and
`updateById` are exactly the underlying results passed through
`defaultMapper` — but `removeById` and `removeAllFor` return the
underlying destroy results unmapped. -/
theorem c7_mapper_application {T Ins Upd : Type} (d : DAO T Ins Upd)
    (id : DbId) (c : SearchCriteria) (opts : Option Opts) (oi : Option Opts)
    (rec : Ins) (recs : List Ins) (u : Upd) :
    (DAO.findById d id).1 = ((PantryView.findOne d.view (.ident id) none).1).map d.defaultMapper ∧
    (DAO.findOneFor d c).1 = ((PantryView.findOne d.view (.crit c) none).1).map d.defaultMapper ∧
    (DAO.findAll d opts).1 = ((PantryView.find d.view none opts).1).map d.defaultMapper ∧
    (DAO.findAllFor d c opts).1 = ((PantryView.find d.view (some c) opts).1).map d.defaultMapper ∧
    (DAO.insert d rec oi).1 =
      ((PantryTable.insertOne d.view (d.sanitizeInsertRecord rec) oi).1).map d.defaultMapper ∧
    (DAO.batchInsert d recs).1 =
      ((PantryTable.insert d.view (recs.map d.sanitizeInsertRecord) none).1).map d.defaultMapper ∧
    (DAO.save d rec).1 = d.defaultMapper (PantryTable.save d.view (d.sanitizeInsertRecord rec)).1 ∧
    (DAO.update d c u).1 =
      ((PantryTable.update d.view c (d.sanitizeUpdateRecord u)).1).map d.defaultMapper ∧
    (DAO.updateById d id u).1 =
      ((PantryTable.updateOne d.view id (d.sanitizeUpdateRecord u) none).1).map d.defaultMapper ∧
    DAO.removeById d id = PantryTable.destroyOne d.view id ∧
    DAO.removeAllFor d c = PantryTable.destroy d.view c :=
  ⟨rfl, rfl, rfl, rfl, rfl, rfl, rfl, rfl, rfl, rfl, rfl⟩

/-- A DAO whose `defaultMapper` maps every row to 42 while its table's
destroy returns the row 0, exhibiting the unmapped remove results. -/
def c7DAO : DAO Int Int Int :=
  ⟨⟨{ witnessTable with destroyOne := fun _ => some 0, destroyMany := fun _ => [0] }, none, []⟩,
    fun _ => 42, id, id⟩

/-- C7 counterexample: `removeById` on `c7DAO` returns the row `0`,
although every output of its `defaultMapper` is `42` — so the returned
row was not passed through the post-processing hook, refuting the claim
for `removeById` (and likewise `removeAllFor`). -/
theorem c7_remove_unmapped_counterexample :
    (DAO.removeById c7DAO (.num 5)).1 = some 0 ∧
    (∀ x : Int, c7DAO.defaultMapper x = 42) ∧ (0 : Int) ≠ 42 :=
  ⟨rfl, fun _ => rfl, by decide⟩
